import Mathlib

/-!
# Verification of the Space_travel software rasterizer

Shallow embedding of the rendering pipeline of the `Space_travel` repository:
the camera (`src/camera.rs`), the triangle rasterizer (`src/triangle.rs`),
the vertex/fragment shaders (`src/shaders.rs`) and the per-fragment
compositing decision of `render` (`src/main.rs`).  `f32` arithmetic is
idealised as real arithmetic; `i32`/`usize` casts are modelled explicitly
where the code relies on their clamping or truncating behaviour.
-/

namespace SpaceTravel

noncomputable section

/-! ## Basic vector and matrix types (nalgebra_glm Vec2/Vec3/Vec4, Mat3/Mat4) -/

/-- A 2-vector of reals, modelling `nalgebra_glm::Vec2`. -/
structure Vec2 where
  x : ℝ
  y : ℝ

/-- A 3-vector of reals, modelling `nalgebra_glm::Vec3`. -/
structure Vec3 where
  x : ℝ
  y : ℝ
  z : ℝ

/-- A 4-vector of reals, modelling `nalgebra_glm::Vec4`. -/
structure Vec4 where
  x : ℝ
  y : ℝ
  z : ℝ
  w : ℝ

def vadd (a b : Vec3) : Vec3 := ⟨a.x + b.x, a.y + b.y, a.z + b.z⟩

def vsub (a b : Vec3) : Vec3 := ⟨a.x - b.x, a.y - b.y, a.z - b.z⟩

def vneg (a : Vec3) : Vec3 := ⟨-a.x, -a.y, -a.z⟩

/-- Scalar multiple `k * v` (in the source written `v * k` on `Vec3`). -/
def vscale (k : ℝ) (a : Vec3) : Vec3 := ⟨k * a.x, k * a.y, k * a.z⟩

/-- `nalgebra_glm::dot`. -/
def vdot (a b : Vec3) : ℝ := a.x * b.x + a.y * b.y + a.z * b.z

/-- `nalgebra_glm::cross`. -/
def vcross (a b : Vec3) : Vec3 :=
  ⟨a.y * b.z - a.z * b.y, a.z * b.x - a.x * b.z, a.x * b.y - a.y * b.x⟩

/-- `nalgebra_glm::length` / `.magnitude()`: the Euclidean norm. -/
def vlength (a : Vec3) : ℝ := Real.sqrt (vdot a a)

/-- `nalgebra_glm::normalize` / `.normalize()`: `v / |v|`.
In the reals, `x / 0 = 0`; the source only normalizes nonzero vectors. -/
def vnormalize (a : Vec3) : Vec3 := vscale (1 / vlength a) a

/-- Rust `f32::clamp(lo, hi)`: `if x < lo { lo } else if x > hi { hi } else { x }`. -/
def rclamp (x lo hi : ℝ) : ℝ := if x < lo then lo else if x > hi then hi else x

/-- Rust `f32::max`. -/
def rmax (a b : ℝ) : ℝ := max a b

/-- Rust `x as u8` on an `f32`: saturating cast, truncating toward zero.
Negative inputs saturate to `0` and inputs above `255` saturate to `255`;
for `x ∈ [0, 256)` truncation toward zero agrees with the floor. -/
def u8cast (x : ℝ) : ℕ := (min (⌊x⌋) 255).toNat

/-- `usize::MAX` on a 64-bit target. -/
def usizeMax : ℤ := 2 ^ 64 - 1

/-- Rust `x as usize` on an `f32`: saturating cast, truncating toward zero.
Negative inputs saturate to `0`, huge inputs to `usize::MAX`;
for nonnegative `x` truncation toward zero agrees with the floor. -/
def usizeCast (x : ℝ) : ℕ := (min (⌊x⌋) usizeMax).toNat

/-- Row-major 3×3 matrix, modelling `nalgebra_glm::Mat3`
(`Mat3::new` takes its arguments row by row). -/
structure Mat3 where
  m11 : ℝ
  m12 : ℝ
  m13 : ℝ
  m21 : ℝ
  m22 : ℝ
  m23 : ℝ
  m31 : ℝ
  m32 : ℝ
  m33 : ℝ

/-- Row-major 4×4 matrix, modelling `nalgebra_glm::Mat4`
(`Mat4::new` takes its arguments row by row). -/
structure Mat4 where
  m11 : ℝ
  m12 : ℝ
  m13 : ℝ
  m14 : ℝ
  m21 : ℝ
  m22 : ℝ
  m23 : ℝ
  m24 : ℝ
  m31 : ℝ
  m32 : ℝ
  m33 : ℝ
  m34 : ℝ
  m41 : ℝ
  m42 : ℝ
  m43 : ℝ
  m44 : ℝ

def Mat3.transpose (m : Mat3) : Mat3 :=
  ⟨m.m11, m.m21, m.m31, m.m12, m.m22, m.m32, m.m13, m.m23, m.m33⟩

def Mat3.det (m : Mat3) : ℝ :=
  m.m11 * (m.m22 * m.m33 - m.m23 * m.m32)
    - m.m12 * (m.m21 * m.m33 - m.m23 * m.m31)
    + m.m13 * (m.m21 * m.m32 - m.m22 * m.m31)

/-- The inverse of a 3×3 matrix via cofactors (meaningful when `det ≠ 0`). -/
def Mat3.inv (m : Mat3) : Mat3 :=
  let d := m.det
  ⟨(m.m22 * m.m33 - m.m23 * m.m32) / d,
   (m.m13 * m.m32 - m.m12 * m.m33) / d,
   (m.m12 * m.m23 - m.m13 * m.m22) / d,
   (m.m23 * m.m31 - m.m21 * m.m33) / d,
   (m.m11 * m.m33 - m.m13 * m.m31) / d,
   (m.m13 * m.m21 - m.m11 * m.m23) / d,
   (m.m21 * m.m32 - m.m22 * m.m31) / d,
   (m.m12 * m.m31 - m.m11 * m.m32) / d,
   (m.m11 * m.m22 - m.m12 * m.m21) / d⟩

/-- `nalgebra`'s `Matrix3::try_inverse`: `None` exactly when the determinant
is zero, otherwise the cofactor inverse. -/
def Mat3.tryInverse (m : Mat3) : Option Mat3 :=
  if m.det = 0 then none else some m.inv

/-- The 3×3 identity matrix (`Mat3::identity`). -/
def mat3Id : Mat3 := ⟨1, 0, 0, 0, 1, 0, 0, 0, 1⟩

/-- Matrix-vector product for 3×3 matrices. -/
def mat3MulVec (m : Mat3) (v : Vec3) : Vec3 :=
  ⟨m.m11 * v.x + m.m12 * v.y + m.m13 * v.z,
   m.m21 * v.x + m.m22 * v.y + m.m23 * v.z,
   m.m31 * v.x + m.m32 * v.y + m.m33 * v.z⟩

/-- Matrix-vector product for 4×4 matrices. -/
def mat4MulVec (m : Mat4) (v : Vec4) : Vec4 :=
  ⟨m.m11 * v.x + m.m12 * v.y + m.m13 * v.z + m.m14 * v.w,
   m.m21 * v.x + m.m22 * v.y + m.m23 * v.z + m.m24 * v.w,
   m.m31 * v.x + m.m32 * v.y + m.m33 * v.z + m.m34 * v.w,
   m.m41 * v.x + m.m42 * v.y + m.m43 * v.z + m.m44 * v.w⟩

/-- The upper-left 3×3 submatrix of a 4×4 matrix (entry (i,j) of the result
is entry (i,j) of the input). -/
def upperLeft3 (m : Mat4) : Mat3 :=
  ⟨m.m11, m.m12, m.m13, m.m21, m.m22, m.m23, m.m31, m.m32, m.m33⟩

/-! ## Pipeline data types (`src/color.rs`, `src/vertex.rs`, `src/fragment.rs`,
`Uniforms` and `ShaderType` from `src/main.rs`) -/

/-- An 8-bit RGB color (`Color::new(r, g, b)` with `u8` channels). -/
structure Color where
  r : ℕ
  g : ℕ
  b : ℕ

/-- The material selector `ShaderType` from `src/main.rs`. -/
inductive ShaderType where
  | Skybox
  | Star
  | RockyPlanet
  | GasGiant
  | Spaceship
  | Orbit

/-- The per-draw-call uniform bundle `Uniforms` from `src/main.rs`. -/
structure Uniforms where
  model_matrix : Mat4
  view_matrix : Mat4
  projection_matrix : Mat4
  viewport_matrix : Mat4
  light_position : Vec3
  is_light_source : Bool
  shader_type : ShaderType
  time : ℝ

/-- A mesh vertex (`Vertex` from `src/vertex.rs`; field list as constructed
throughout `src/shaders.rs` and `src/main.rs`). -/
structure Vertex where
  position : Vec3
  normal : Vec3
  tex_coords : Vec2
  color : Color
  transformed_position : Vec3
  transformed_normal : Vec3

/-- A rasterizer output fragment (`Fragment` from `src/fragment.rs`). -/
structure Fragment where
  position : Vec2
  color : Color
  depth : ℝ
  intensity : ℝ

/-- `Fragment::new_with_intensity` from `src/fragment.rs`. -/
def Fragment.new_with_intensity (x y : ℝ) (color : Color) (depth intensity : ℝ) :
    Fragment :=
  ⟨⟨x, y⟩, color, depth, intensity⟩

/-! ## The triangle rasterizer (`src/triangle.rs`) -/

/-- `edge_function` from `src/triangle.rs`. -/
def edge_function (a b c : Vec3) : ℝ :=
  (c.x - a.x) * (b.y - a.y) - (c.y - a.y) * (b.x - a.x)

/-- `barycentric_coordinates` from `src/triangle.rs`. -/
def barycentric_coordinates (p a b c : Vec3) (area : ℝ) : ℝ × ℝ × ℝ :=
  (edge_function b c p / area, edge_function c a p / area, edge_function a b p / area)

/-- The integer bounding box computed by `calculate_bounding_box`. -/
structure BBox where
  minX : ℤ
  minY : ℤ
  maxX : ℤ
  maxY : ℤ

/-- `calculate_bounding_box` from `src/triangle.rs`: floor/ceil of the
coordinate extremes, then each coordinate clamped into `[-1000, 2000]`. -/
def calculate_bounding_box (v1 v2 v3 : Vec3) : BBox :=
  let minX := ⌊min (min v1.x v2.x) v3.x⌋
  let minY := ⌊min (min v1.y v2.y) v3.y⌋
  let maxX := ⌈max (max v1.x v2.x) v3.x⌉
  let maxY := ⌈max (max v1.y v2.y) v3.y⌉
  ⟨min (max minX (-1000)) 2000, min (max minY (-1000)) 2000,
   min (max maxX (-1000)) 2000, min (max maxY (-1000)) 2000⟩

/-- The flat-shading face normal of `triangle_with_uniforms`:
`normalize(cross(world_b - world_a, world_c - world_a))` computed from the
object-space `position` fields. -/
def triangleNormal (v1 v2 v3 : Vertex) : Vec3 :=
  vnormalize (vcross (vsub v2.position v1.position) (vsub v3.position v1.position))

/-- The triangle centroid `(world_a + world_b + world_c) / 3.0` of
`triangle_with_uniforms`. -/
def triangleCenter (v1 v2 v3 : Vertex) : Vec3 :=
  vscale (1 / 3) (vadd (vadd v1.position v2.position) v3.position)

/-- The per-triangle lighting intensity computed inline by
`triangle_with_uniforms` (`src/triangle.rs` lines 52-63): `1.0` for a light
source, `dot(triangle_normal, light_direction).max(0.0)` otherwise, and the
default `0.5` when no uniforms are supplied. -/
def triangleIntensity (v1 v2 v3 : Vertex) (uniforms : Option Uniforms) : ℝ :=
  match uniforms with
  | some u =>
      if u.is_light_source then 1
      else
        rmax (vdot (triangleNormal v1 v2 v3)
          (vnormalize (vsub u.light_position (triangleCenter v1 v2 v3)))) 0
  | none => 0.5

/-- The inclusive integer range `lo..=hi` of a Rust `for` loop, as a list
(empty when `hi < lo`). -/
def intRange (lo hi : ℤ) : List ℤ :=
  (List.range (hi + 1 - lo).toNat).map (fun k => lo + k)

/-- The interpolated fragment color of `triangle_with_uniforms`:
each channel is `(c1 * w1 + c2 * w2 + c3 * w3) as u8`. -/
def interpColor (c1 c2 c3 : Color) (w1 w2 w3 : ℝ) : Color :=
  ⟨u8cast ((c1.r : ℝ) * w1 + (c2.r : ℝ) * w2 + (c3.r : ℝ) * w3),
   u8cast ((c1.g : ℝ) * w1 + (c2.g : ℝ) * w2 + (c3.g : ℝ) * w3),
   u8cast ((c1.b : ℝ) * w1 + (c2.b : ℝ) * w2 + (c3.b : ℝ) * w3)⟩

/-- The bounding-box scan loop of `triangle_with_uniforms` (`src/triangle.rs`
lines 65-95): for every pixel of the clamped bounding box, test the pixel
center's barycentric coordinates and emit an interpolated fragment when all
three weights lie in `[0, 1]`.  The bounding box, intensity and area are the
same pure values the function body computes before the loop. -/
def rasterizeFragments (v1 v2 v3 : Vertex) (uniforms : Option Uniforms) :
    List Fragment :=
  let a := v1.transformed_position
  let b := v2.transformed_position
  let c := v3.transformed_position
  let bb := calculate_bounding_box a b c
  let intensity := triangleIntensity v1 v2 v3 uniforms
  let area := edge_function a b c
  (intRange bb.minY bb.maxY).flatMap (fun y =>
    (intRange bb.minX bb.maxX).filterMap (fun x =>
      let p : Vec3 := ⟨(x : ℝ) + 0.5, (y : ℝ) + 0.5, 0⟩
      let w := barycentric_coordinates p a b c area
      if 0 ≤ w.1 ∧ w.1 ≤ 1 ∧ 0 ≤ w.2.1 ∧ w.2.1 ≤ 1 ∧ 0 ≤ w.2.2 ∧ w.2.2 ≤ 1 then
        some (Fragment.new_with_intensity (x : ℝ) (y : ℝ)
          (interpColor v1.color v2.color v3.color w.1 w.2.1 w.2.2)
          (a.z * w.1 + b.z * w.2.1 + c.z * w.2.2) intensity)
      else none))

/-- `triangle_with_uniforms` from `src/triangle.rs`: compute the clamped
bounding box; reject the triangle (returning no fragments) when either
dimension `(max - min) as usize` exceeds `300`; otherwise run the scan loop.
(`max - min` is never negative, so the `as usize` cast is exact.) -/
def triangle_with_uniforms (v1 v2 v3 : Vertex) (uniforms : Option Uniforms) :
    List Fragment :=
  let bb := calculate_bounding_box v1.transformed_position v2.transformed_position
    v3.transformed_position
  if (bb.maxX - bb.minX).toNat > 300 ∨ (bb.maxY - bb.minY).toNat > 300 then []
  else rasterizeFragments v1 v2 v3 uniforms

/-- `triangle` from `src/triangle.rs`. -/
def triangle (v1 v2 v3 : Vertex) : List Fragment :=
  triangle_with_uniforms v1 v2 v3 none

/-! ## The shading subsystem (`src/shaders.rs`) -/

/-- Rust `f32::min`. -/
def rmin (a b : ℝ) : ℝ := min a b

/-- Rust `f32::floor` (as a real number). -/
def rfloor (x : ℝ) : ℝ := (⌊x⌋ : ℤ)

/-- `skybox_shader` from `src/shaders.rs`. -/
def skybox_shader (vertex_pos : Vec3) (time : ℝ) : Color :=
  let x := vertex_pos.x
  let y := vertex_pos.y
  let z := vertex_pos.z
  let seed := Real.sin (x * 12.9898 + y * 78.233 + z * 43.758) * 43758.5453
  let noise := |seed - rfloor seed|
  let twinkle := rmax (Real.sin (time * 2 + noise * 10) * 0.5 + 0.5) 0
  let star_threshold : ℝ := 0.995
  if noise > star_threshold then
    let star_intensity := ((noise - star_threshold) / (1 - star_threshold)) * twinkle
    let brightness := u8cast (star_intensity * 255)
    ⟨brightness, brightness, brightness - 50⟩
  else
    ⟨u8cast (noise * 10), u8cast (noise * 15), u8cast (noise * 25 + 30)⟩

/-- `calculate_lighting` from `src/shaders.rs` (defined in the source but
called from nowhere): Lambert diffuse with distance attenuation and a `0.1`
ambient term, capped at `1`, scaling the base color. -/
def calculate_lighting (vertex_pos normal light_pos : Vec3) (base_color : Color) :
    Color :=
  let light_dir := vnormalize (vsub light_pos vertex_pos)
  let diffuse := rmax (vdot normal light_dir) 0
  let distance := vlength (vsub light_pos vertex_pos)
  let attenuation := 1 / (1 + 0.0001 * distance + 0.000001 * distance * distance)
  let ambient : ℝ := 0.1
  let intensity := rmin (ambient + diffuse * attenuation) 1
  ⟨u8cast ((base_color.r : ℝ) * intensity),
   u8cast ((base_color.g : ℝ) * intensity),
   u8cast ((base_color.b : ℝ) * intensity)⟩

/-- `fragment_shader` from `src/shaders.rs`: scales the fragment color by the
fragment's lighting intensity. -/
def fragment_shader (fragment : Fragment) : Fragment :=
  let intensity_factor := fragment.intensity
  { fragment with
    color :=
      ⟨u8cast ((fragment.color.r : ℝ) * intensity_factor),
       u8cast ((fragment.color.g : ℝ) * intensity_factor),
       u8cast ((fragment.color.b : ℝ) * intensity_factor)⟩ }

/-- `star_shader` from `src/shaders.rs`. -/
def star_shader (position : Vec3) (time : ℝ) : Color :=
  let distance_from_center :=
    Real.sqrt (position.x * position.x + position.y * position.y
      + position.z * position.z)
  let normalized_distance := rmin (distance_from_center * 0.1) 1
  let pulse := Real.sin (time * 3) * 0.15 + 0.85
  let temp_factor := (1 - normalized_distance) * pulse
  let flare_noise :=
    (Real.sin (position.x * 0.1 + time) * Real.cos (position.y * 0.1 + time)
      + Real.sin (position.z * 0.1)) * 0.2
  let final_intensity := rmin (rmax (temp_factor + flare_noise) 0) 1
  if final_intensity > 0.8 then
    ⟨255, 255, u8cast (200 * final_intensity)⟩
  else if final_intensity > 0.5 then
    ⟨255, u8cast (200 * final_intensity), u8cast (100 * final_intensity)⟩
  else
    ⟨u8cast (255 * final_intensity), u8cast (150 * final_intensity), 50⟩

/-- `rocky_planet_shader` from `src/shaders.rs`. -/
def rocky_planet_shader (position normal : Vec3) (_time : ℝ) : Color :=
  let terrain_noise := Real.sin (position.x * 0.05) * Real.cos (position.y * 0.05)
    + Real.sin (position.z * 0.03)
  let height_factor := (terrain_noise + 1) * 0.5
  let crater_pattern := |Real.sin (position.x * 0.2) * Real.cos (position.y * 0.15)
    * Real.sin (position.z * 0.18)|
  let crater_factor : ℝ := if crater_pattern > 0.7 then 0.3 else 1
  let mineral_noise := (Real.sin (position.x * 0.8 + position.y * 0.6)
    + Real.cos (position.z * 0.4)) * 0.5 + 0.5
  let surface_roughness := |normal.x + normal.y + normal.z| * 0.1 + 0.9
  let base_factor := height_factor * crater_factor * surface_roughness
  if mineral_noise > 0.7 ∧ height_factor > 0.6 then
    ⟨u8cast (180 * base_factor), u8cast (100 * base_factor), u8cast (80 * base_factor)⟩
  else if height_factor > 0.4 then
    ⟨u8cast (140 * base_factor), u8cast (120 * base_factor), u8cast (100 * base_factor)⟩
  else
    ⟨u8cast (90 * base_factor), u8cast (80 * base_factor), u8cast (70 * base_factor)⟩

/-- `gas_giant_shader` from `src/shaders.rs`. -/
def gas_giant_shader (position normal : Vec3) (time : ℝ) : Color :=
  let latitude := Real.sin (position.y * 0.02) * 0.5 + 0.5
  let band_pattern := Real.sin (position.y * 0.1 + time * 0.1) * 0.5 + 0.5
  let storm_x := Real.sin (position.x * 0.03 + time * 0.2)
  let storm_z := Real.cos (position.z * 0.03 + time * 0.15)
  let storm_factor := (storm_x * storm_z + 1) * 0.5
  let composition_noise := Real.sin ((position.x + position.z) * 0.01) * 0.3 + 0.7
  let depth_factor := rmin (vlength normal * 0.8 + 0.2) 1
  let band_intensity := (latitude + band_pattern * 0.3) * composition_noise * depth_factor
  let storm_intensity := storm_factor * 0.4 + 0.6
  let final_factor := band_intensity * storm_intensity
  if band_pattern > 0.6 then
    ⟨u8cast (220 * final_factor), u8cast (200 * final_factor), u8cast (170 * final_factor)⟩
  else if band_pattern > 0.3 then
    ⟨u8cast (160 * final_factor), u8cast (120 * final_factor), u8cast (80 * final_factor)⟩
  else
    ⟨u8cast (200 * final_factor), u8cast (140 * final_factor), u8cast (100 * final_factor)⟩

/-- `spaceship_shader` from `src/shaders.rs`. -/
def spaceship_shader (position normal : Vec3) (time : ℝ) : Color :=
  let base_metallic : ℝ := 0.7
  let panel_x := rmin (Real.sin (position.x * 2) * 0.5 + 0.5) 0.9
  let panel_z := rmin (Real.cos (position.z * 2) * 0.5 + 0.5) 0.9
  let panel_detail := (panel_x + panel_z) * 0.3 + 0.7
  let wear_pattern := Real.sin ((position.x + position.y + position.z) * 1.5) * 0.1 + 0.9
  let light_pulse := Real.sin (time * 2) * 0.1 + 0.9
  let engine_glow : ℝ := if position.z < -0.5 then light_pulse else 1
  let final_intensity := base_metallic * panel_detail * wear_pattern * engine_glow
  let normal_factor := rmin (vlength normal * 0.8 + 0.2) 1
  let total_factor := final_intensity * normal_factor
  ⟨u8cast (180 * total_factor), u8cast (190 * total_factor), u8cast (210 * total_factor)⟩

/-- `orbit_shader` from `src/shaders.rs`. -/
def orbit_shader (position : Vec3) (time : ℝ) : Color :=
  let orbit_intensity : ℝ := 0.3
  let pulse := Real.sin (time * 1.5) * 0.2 + 0.8
  let distance_fade := rmin (vlength position * 0.01) 1
  let final_intensity := orbit_intensity * pulse * distance_fade
  ⟨u8cast (100 * final_intensity), u8cast (200 * final_intensity),
   u8cast (255 * final_intensity)⟩

/-- The `Mat3` built by `vertex_shader` from
`uniforms.model_matrix[0], [1], [2], [4], [5], [6], [8], [9], [10]`.
nalgebra's single-index access is **column-major** (`m[k]` is entry
`(k mod 4, k / 4)`), while `Mat3::new` takes its arguments row by row, so the
constructed matrix is the **transpose** of the model matrix's upper-left 3×3. -/
def modelMat3 (m : Mat4) : Mat3 :=
  ⟨m.m11, m.m21, m.m31, m.m12, m.m22, m.m32, m.m13, m.m23, m.m33⟩

/-- The normal matrix of `vertex_shader`:
`model_mat3.transpose().try_inverse().unwrap_or(Mat3::identity())`. -/
def normalMatrix (m : Mat4) : Mat3 :=
  ((modelMat3 m).transpose.tryInverse).getD mat3Id

/-- `vertex_shader` from `src/shaders.rs`: the full vertex pipeline —
model → world → view → clip, guarded perspective divide with per-component
clamp to `[-10, 10]`, viewport mapping, normal transformation, and
material-selected base color. -/
def vertex_shader (vertex : Vertex) (uniforms : Uniforms) : Vertex :=
  let position : Vec4 := ⟨vertex.position.x, vertex.position.y, vertex.position.z, 1⟩
  let world_position := mat4MulVec uniforms.model_matrix position
  let view_position := mat4MulVec uniforms.view_matrix world_position
  let clip_position := mat4MulVec uniforms.projection_matrix view_position
  let w := rmax clip_position.w 0.001
  let ndc_position : Vec4 :=
    ⟨rclamp (clip_position.x / w) (-10) 10,
     rclamp (clip_position.y / w) (-10) 10,
     rclamp (clip_position.z / w) (-10) 10, 1⟩
  let screen_position := mat4MulVec uniforms.viewport_matrix ndc_position
  let transformed_position : Vec3 :=
    ⟨screen_position.x, screen_position.y, screen_position.z⟩
  let transformed_normal := mat3MulVec (normalMatrix uniforms.model_matrix) vertex.normal
  let final_color :=
    match uniforms.shader_type with
    | ShaderType.Skybox => skybox_shader vertex.position uniforms.time
    | ShaderType.Star => star_shader vertex.position uniforms.time
    | ShaderType.RockyPlanet =>
        rocky_planet_shader vertex.position transformed_normal uniforms.time
    | ShaderType.GasGiant =>
        gas_giant_shader vertex.position transformed_normal uniforms.time
    | ShaderType.Spaceship =>
        spaceship_shader vertex.position transformed_normal uniforms.time
    | ShaderType.Orbit => orbit_shader vertex.position uniforms.time
  { position := vertex.position
    normal := vertex.normal
    tex_coords := vertex.tex_coords
    color := final_color
    transformed_position := transformed_position
    transformed_normal := transformed_normal }

/-! ## The camera (`src/camera.rs`) -/

/-- `nalgebra_glm::rotate_vec3(v, angle, axis)`: rotation of `v` by `angle`
about the normalized `axis` (Rodrigues' formula, as
`Rotation3::from_axis_angle(Unit::new_normalize(axis), angle) * v`). -/
def rotate_vec3 (v : Vec3) (angle : ℝ) (axis : Vec3) : Vec3 :=
  let k := vnormalize axis
  vadd (vadd (vscale (Real.cos angle) v) (vscale (Real.sin angle) (vcross k v)))
    (vscale (vdot k v * (1 - Real.cos angle)) k)

/-- The camera state (`Camera` from `src/camera.rs`). -/
structure Camera where
  position : Vec3
  target : Vec3
  up : Vec3
  distance : ℝ
  theta : ℝ
  phi : ℝ
  free_camera : Bool
  movement_speed : ℝ
  rotation_speed : ℝ
  velocity : Vec3

namespace Camera

/-- `Camera::update_position`: in orbital mode, recompute `position` from the
spherical coordinates around `target`; a no-op in free mode. -/
def update_position (c : Camera) : Camera :=
  if c.free_camera then c
  else
    let x := c.distance * Real.sin c.phi * Real.cos c.theta
    let y := c.distance * Real.cos c.phi
    let z := c.distance * Real.sin c.phi * Real.sin c.theta
    { c with position := vadd c.target ⟨x, y, z⟩ }

/-- `Camera::new(target, distance)`. -/
def new (target : Vec3) (distance : ℝ) : Camera :=
  update_position
    { position := ⟨0, 0, 0⟩
      target := target
      up := ⟨0, 1, 0⟩
      distance := distance
      theta := 0
      phi := Real.pi / 2
      free_camera := false
      movement_speed := 50
      rotation_speed := 0.03
      velocity := ⟨0, 0, 0⟩ }

/-- `Camera::orbit(delta_theta, delta_phi)`: in orbital mode, add the deltas,
clamp `phi` into `[0.1, π - 0.1]`, and recompute the position. -/
def orbit (c : Camera) (delta_theta delta_phi : ℝ) : Camera :=
  if c.free_camera then c
  else
    update_position
      { c with
        theta := c.theta + delta_theta
        phi := rclamp (c.phi + delta_phi) 0.1 (Real.pi - 0.1) }

/-- `Camera::zoom(delta_distance)`: in orbital mode, add the delta, clamp
`distance` into `[50, 3000]`, and recompute the position. -/
def zoom (c : Camera) (delta_distance : ℝ) : Camera :=
  if c.free_camera then c
  else
    update_position { c with distance := rclamp (c.distance + delta_distance) 50 3000 }

/-- `Camera::toggle_free_camera`: flip the mode flag; on entering free mode,
re-anchor `target` 100 units along the current look direction. -/
def toggle_free_camera (c : Camera) : Camera :=
  let c' := { c with free_camera := !c.free_camera }
  if c'.free_camera then
    let forward := vnormalize (vsub c'.target c'.position)
    { c' with target := vadd c'.position (vscale 100 forward) }
  else c'

/-- `Camera::move_forward`. -/
def move_forward (c : Camera) (delta : ℝ) : Camera :=
  if c.free_camera then
    let forward := vnormalize (vsub c.target c.position)
    { c with velocity := vadd c.velocity (vscale (c.movement_speed * delta) forward) }
  else c

/-- `Camera::move_backward`. -/
def move_backward (c : Camera) (delta : ℝ) : Camera :=
  if c.free_camera then
    let forward := vnormalize (vsub c.target c.position)
    { c with velocity := vsub c.velocity (vscale (c.movement_speed * delta) forward) }
  else c

/-- `Camera::move_left`. -/
def move_left (c : Camera) (delta : ℝ) : Camera :=
  if c.free_camera then
    let forward := vnormalize (vsub c.target c.position)
    let right := vnormalize (vcross forward c.up)
    { c with velocity := vsub c.velocity (vscale (c.movement_speed * delta) right) }
  else c

/-- `Camera::move_right`. -/
def move_right (c : Camera) (delta : ℝ) : Camera :=
  if c.free_camera then
    let forward := vnormalize (vsub c.target c.position)
    let right := vnormalize (vcross forward c.up)
    { c with velocity := vadd c.velocity (vscale (c.movement_speed * delta) right) }
  else c

/-- `Camera::move_up`. -/
def move_up (c : Camera) (delta : ℝ) : Camera :=
  if c.free_camera then
    { c with velocity := vadd c.velocity (vscale (c.movement_speed * delta) c.up) }
  else c

/-- `Camera::move_down`. -/
def move_down (c : Camera) (delta : ℝ) : Camera :=
  if c.free_camera then
    { c with velocity := vsub c.velocity (vscale (c.movement_speed * delta) c.up) }
  else c

/-- `Camera::rotate(delta_x, delta_y)`: in free mode, rotate the forward
vector about world up then about the right vector, and re-anchor the target. -/
def rotate (c : Camera) (delta_x delta_y : ℝ) : Camera :=
  if c.free_camera then
    let forward := vnormalize (vsub c.target c.position)
    let right := vnormalize (vcross forward c.up)
    let new_forward_h := rotate_vec3 forward (delta_x * c.rotation_speed) c.up
    let new_forward := rotate_vec3 new_forward_h (delta_y * c.rotation_speed) right
    { c with target := vadd c.position (vscale 100 new_forward) }
  else c

/-- `Camera::update(delta_time)`: in free mode, integrate position and target
by the velocity and damp the velocity by `0.9`. -/
def update (c : Camera) (delta_time : ℝ) : Camera :=
  if c.free_camera then
    { c with
      position := vadd c.position (vscale delta_time c.velocity)
      target := vadd c.target (vscale delta_time c.velocity)
      velocity := vscale 0.9 c.velocity }
  else c

/-- `Camera::check_collision(body_positions, body_scales)`, iterating with the
running index `i` of `.enumerate()`.  The Rust code indexes `body_scales[i]`
unconditionally, which panics when `i` is out of bounds: the panic is
modelled by `none`.  On the first colliding body the camera is pushed out to
the collision radius and the function returns `true`. -/
def check_collision_aux (c : Camera) (body_positions : List Vec3)
    (body_scales : List ℝ) (i : ℕ) : Option (Camera × Bool) :=
  match body_positions with
  | [] => some (c, false)
  | body_pos :: rest =>
      match body_scales.get? i with
      | none => none
      | some scale =>
          let distance_to_body := vlength (vsub c.position body_pos)
          let collision_radius := scale * 15
          if distance_to_body < collision_radius then
            let direction := vnormalize (vsub c.position body_pos)
            let c' := { c with
              position := vadd body_pos (vscale collision_radius direction) }
            let c'' :=
              if c'.free_camera then
                { c' with target := vadd c'.position (vscale 100 direction) }
              else c'
            some (c'', true)
          else check_collision_aux c rest body_scales (i + 1)

/-- `Camera::check_collision` (entry point, starting at index `0`). -/
def check_collision (c : Camera) (body_positions : List Vec3)
    (body_scales : List ℝ) : Option (Camera × Bool) :=
  check_collision_aux c body_positions body_scales 0

/-- `Camera::warp_to_body(body_position, safe_distance)`: teleport near the
body in free mode; in orbital mode set `target` and `distance` (without any
clamp) and recompute the position. -/
def warp_to_body (c : Camera) (body_position : Vec3) (safe_distance : ℝ) : Camera :=
  if c.free_camera then
    { c with
      position := vadd body_position ⟨safe_distance, safe_distance * 0.5, 0⟩
      target := body_position
      velocity := ⟨0, 0, 0⟩ }
  else
    update_position { c with target := body_position, distance := safe_distance }

end Camera

/-- `look_at_matrix(eye, at, up)` from `src/camera.rs`: rows `(right, trueUp,
-forward)` with last column `-dot(axis, eye)` per row and last row
`(0,0,0,1)`. -/
def look_at_matrix (eye at_ up : Vec3) : Mat4 :=
  let zaxis0 := vnormalize (vsub at_ eye)
  let xaxis := vnormalize (vcross zaxis0 up)
  let yaxis := vcross xaxis zaxis0
  let zaxis := vneg zaxis0
  ⟨xaxis.x, xaxis.y, xaxis.z, -(vdot xaxis eye),
   yaxis.x, yaxis.y, yaxis.z, -(vdot yaxis eye),
   zaxis.x, zaxis.y, zaxis.z, -(vdot zaxis eye),
   0, 0, 0, 1⟩

/-! ## The camera operations named by the reachability claim, as a step
relation (`orbit`, `zoom`, `toggle_free_camera`, the `move_*` methods,
`rotate`, `update`, `check_collision`, `warp_to_body`). -/

/-- One camera operation with its arguments. -/
inductive CamOp where
  | orbit (delta_theta delta_phi : ℝ)
  | zoom (delta_distance : ℝ)
  | toggle
  | moveForward (delta : ℝ)
  | moveBackward (delta : ℝ)
  | moveLeft (delta : ℝ)
  | moveRight (delta : ℝ)
  | moveUp (delta : ℝ)
  | moveDown (delta : ℝ)
  | rotate (delta_x delta_y : ℝ)
  | update (delta_time : ℝ)
  | checkCollision (body_positions : List Vec3) (body_scales : List ℝ)
  | warp (body_position : Vec3) (safe_distance : ℝ)

/-- Apply one camera operation; `none` models a `check_collision` panic. -/
def applyOp (op : CamOp) (c : Camera) : Option Camera :=
  match op with
  | CamOp.orbit dt dp => some (c.orbit dt dp)
  | CamOp.zoom dd => some (c.zoom dd)
  | CamOp.toggle => some c.toggle_free_camera
  | CamOp.moveForward d => some (c.move_forward d)
  | CamOp.moveBackward d => some (c.move_backward d)
  | CamOp.moveLeft d => some (c.move_left d)
  | CamOp.moveRight d => some (c.move_right d)
  | CamOp.moveUp d => some (c.move_up d)
  | CamOp.moveDown d => some (c.move_down d)
  | CamOp.rotate dx dy => some (c.rotate dx dy)
  | CamOp.update dt => some (c.update dt)
  | CamOp.checkCollision ps ss => (c.check_collision ps ss).map Prod.fst
  | CamOp.warp p d => some (c.warp_to_body p d)

/-- Run a sequence of camera operations from a starting state. -/
def runOps (ops : List CamOp) (c : Camera) : Option Camera :=
  match ops with
  | [] => some c
  | op :: rest =>
      match applyOp op c with
      | none => none
      | some c' => runOps rest c'

/-- A camera state reachable from some `Camera::new` camera by some finite
sequence of the listed operations. -/
def ReachableCamera (c : Camera) : Prop :=
  ∃ target distance ops, runOps ops (Camera.new target distance) = some c

/-! ## The per-fragment compositing decision of `render` (`src/main.rs`
lines 345-355) -/

/-- The fragment-processing step of `render` for one rasterizer fragment:
apply `fragment_shader`, cast the fragment position to `usize` (a saturating
cast: negative coordinates become `0`), and write the pixel only when the
cast coordinates are strictly inside `width × height`.  Returns the written
pixel coordinates, or `none` when the fragment is dropped. -/
def renderFragmentWrite (width height : ℕ) (fragment : Fragment) :
    Option (ℕ × ℕ) :=
  let processed_fragment := fragment_shader fragment
  let x := usizeCast processed_fragment.position.x
  let y := usizeCast processed_fragment.position.y
  if x < width ∧ y < height then some (x, y) else none

/-! ## Helper lemmas -/

lemma rclamp_mem {lo hi : ℝ} (x : ℝ) (h : lo ≤ hi) :
    lo ≤ rclamp x lo hi ∧ rclamp x lo hi ≤ hi := by
  unfold rclamp
  split
  · exact ⟨le_refl lo, h⟩
  · split
    · exact ⟨h, le_refl hi⟩
    · constructor <;> linarith [not_lt.mp (by assumption : ¬ x < lo),
        not_lt.mp (by assumption : ¬ x > hi)]

lemma update_position_phi (c : Camera) : (c.update_position).phi = c.phi := by
  unfold Camera.update_position; split <;> rfl

lemma update_position_distance (c : Camera) :
    (c.update_position).distance = c.distance := by
  unfold Camera.update_position; split <;> rfl

lemma update_position_free (c : Camera) :
    (c.update_position).free_camera = c.free_camera := by
  unfold Camera.update_position; split <;> rfl

/-! ## Theorems for the claims -/

/-- C6: for every camera in orbital mode (`free_camera = false`) and all
deltas, after `orbit(delta_theta, delta_phi)` the `phi` field lies in
`[0.1, π - 0.1]`. -/
theorem orbit_phi_in_bounds (c : Camera) (delta_theta delta_phi : ℝ)
    (h : c.free_camera = false) :
    0.1 ≤ (c.orbit delta_theta delta_phi).phi ∧
      (c.orbit delta_theta delta_phi).phi ≤ Real.pi - 0.1 := by
  have hpi : (0.1 : ℝ) ≤ Real.pi - 0.1 := by
    have := Real.pi_gt_three; linarith
  unfold Camera.orbit
  rw [h]
  simp only [Bool.false_eq_true, if_false, update_position_phi]
  exact rclamp_mem _ hpi

/-- Witness for C6: the adversarial delta `Δφ = 1000` on a fresh camera. -/
theorem orbit_phi_in_bounds_witness :
    0.1 ≤ ((Camera.new ⟨0, 0, 0⟩ 600).orbit 0 1000).phi ∧
      ((Camera.new ⟨0, 0, 0⟩ 600).orbit 0 1000).phi ≤ Real.pi - 0.1 :=
  orbit_phi_in_bounds (Camera.new ⟨0, 0, 0⟩ 600) 0 1000 rfl

/-- C7: for every camera whose position and target are distinct, the view
matrix built by `look_at_matrix` maps the homogeneous camera position to a
view-space vector with zero x and y components. -/
theorem look_at_maps_eye_to_axis (eye at_ up : Vec3) (_h : eye ≠ at_) :
    (mat4MulVec (look_at_matrix eye at_ up) ⟨eye.x, eye.y, eye.z, 1⟩).x = 0 ∧
      (mat4MulVec (look_at_matrix eye at_ up) ⟨eye.x, eye.y, eye.z, 1⟩).y = 0 := by
  constructor <;>
    simp only [look_at_matrix, mat4MulVec, vdot, vneg, vnormalize, vcross, vsub,
      vscale, vlength] <;> ring

/-- Witness for C7 at a concrete camera position distinct from its target. -/
theorem look_at_maps_eye_to_axis_witness :
    (mat4MulVec (look_at_matrix ⟨1, 2, 3⟩ ⟨0, 0, 0⟩ ⟨0, 1, 0⟩) ⟨1, 2, 3, 1⟩).x = 0 ∧
      (mat4MulVec (look_at_matrix ⟨1, 2, 3⟩ ⟨0, 0, 0⟩ ⟨0, 1, 0⟩) ⟨1, 2, 3, 1⟩).y = 0 :=
  look_at_maps_eye_to_axis ⟨1, 2, 3⟩ ⟨0, 0, 0⟩ ⟨0, 1, 0⟩ (by
    intro h
    have := congrArg Vec3.x h
    norm_num at this)

/-- The concrete camera showing that a double toggle does not restore the
target: orbital camera at the origin looking at `(1, 0, 0)`. -/
def toggleCam : Camera :=
  ⟨⟨0, 0, 0⟩, ⟨1, 0, 0⟩, ⟨0, 1, 0⟩, 600, 0, Real.pi / 2, false, 50, 0.03, ⟨0, 0, 0⟩⟩

/-- C8: `toggle_free_camera` twice restores the mode flag for every camera,
but there is a camera whose target is not restored. -/
theorem toggle_twice_flag_involutive :
    (∀ c : Camera,
        ((c.toggle_free_camera).toggle_free_camera).free_camera = c.free_camera) ∧
      ∃ c : Camera, ((c.toggle_free_camera).toggle_free_camera).target ≠ c.target := by
  constructor
  · intro c
    unfold Camera.toggle_free_camera
    cases hc : c.free_camera <;> simp [hc]
  · refine ⟨toggleCam, ?_⟩
    unfold Camera.toggle_free_camera toggleCam
    simp only [Bool.not_false, Bool.not_true, if_true, if_false]
    intro h
    have hx := congrArg Vec3.x h
    simp only [vadd, vscale, vnormalize, vsub, vlength, vdot] at hx
    norm_num [Real.sqrt_one] at hx

/-- C9: `vertex_shader` carries the input's object-space fields unchanged:
position, normal and texture coordinates of the output equal those of the
input vertex. -/
theorem vertex_shader_preserves_object_fields (v : Vertex) (u : Uniforms) :
    (vertex_shader v u).position = v.position ∧
      (vertex_shader v u).normal = v.normal ∧
      (vertex_shader v u).tex_coords = v.tex_coords :=
  ⟨rfl, rfl, rfl⟩

/-- `check_collision_aux` returns normally whenever every index it will visit
is in bounds for `body_scales`. -/
lemma check_collision_aux_some (c : Camera) (body_scales : List ℝ) :
    ∀ (body_positions : List Vec3) (i : ℕ),
      i + body_positions.length ≤ body_scales.length →
      ∃ r, Camera.check_collision_aux c body_positions body_scales i = some r := by
  intro ps
  induction ps with
  | nil => intro i _; exact ⟨(c, false), rfl⟩
  | cons p rest ih =>
      intro i hlen
      have hi : i < body_scales.length := by
        simp only [List.length_cons] at hlen; omega
      unfold Camera.check_collision_aux
      rw [List.get?_eq_get hi]
      split
      · simp_all
      · dsimp only
        split
        · exact ⟨_, rfl⟩
        · apply ih
          simp only [List.length_cons] at hlen; omega

/-- C10: whenever `body_scales` has at least as many elements as
`body_positions`, every slice access of `check_collision` is in bounds and
the call returns normally (no panic). -/
theorem check_collision_no_panic (c : Camera) (body_positions : List Vec3)
    (body_scales : List ℝ)
    (h : body_positions.length ≤ body_scales.length) :
    ∃ r, c.check_collision body_positions body_scales = some r := by
  unfold Camera.check_collision
  exact check_collision_aux_some c body_scales body_positions 0 (by omega)

/-- Witness for C10: one body position with one matching scale. -/
theorem check_collision_no_panic_witness :
    ∃ r, (Camera.new ⟨0, 0, 0⟩ 600).check_collision [⟨0, 0, 0⟩] [1] = some r :=
  check_collision_no_panic (Camera.new ⟨0, 0, 0⟩ 600) [⟨0, 0, 0⟩] [1]
    (by simp)

/-- The bounding box of a triangle's transformed vertex positions. -/
def bboxOf (v1 v2 v3 : Vertex) : BBox :=
  calculate_bounding_box v1.transformed_position v2.transformed_position
    v3.transformed_position

/-- The `triangle_width` of `triangle_with_uniforms`: `(max_x - min_x) as usize`. -/
def triangleWidth (v1 v2 v3 : Vertex) : ℕ :=
  ((bboxOf v1 v2 v3).maxX - (bboxOf v1 v2 v3).minX).toNat

/-- The `triangle_height` of `triangle_with_uniforms`: `(max_y - min_y) as usize`. -/
def triangleHeight (v1 v2 v3 : Vertex) : ℕ :=
  ((bboxOf v1 v2 v3).maxY - (bboxOf v1 v2 v3).minY).toNat

/-- C5: when either clamped bounding-box dimension exceeds 300, the triangle
is rejected and no fragments are produced; when both dimensions are at most
300 (in particular for a 299×299 box) the size guard does not fire and the
normal scan-loop fragment set is produced. -/
theorem triangle_size_guard :
    (∀ (v1 v2 v3 : Vertex) (u : Option Uniforms),
        300 < triangleWidth v1 v2 v3 ∨ 300 < triangleHeight v1 v2 v3 →
        triangle_with_uniforms v1 v2 v3 u = []) ∧
      ∀ (v1 v2 v3 : Vertex) (u : Option Uniforms),
        triangleWidth v1 v2 v3 ≤ 300 → triangleHeight v1 v2 v3 ≤ 300 →
        triangle_with_uniforms v1 v2 v3 u = rasterizeFragments v1 v2 v3 u := by
  have key : ∀ (v1 v2 v3 : Vertex) (u : Option Uniforms),
      triangle_with_uniforms v1 v2 v3 u =
        if 300 < triangleWidth v1 v2 v3 ∨ 300 < triangleHeight v1 v2 v3 then []
        else rasterizeFragments v1 v2 v3 u := fun _ _ _ _ => rfl
  constructor
  · intro v1 v2 v3 u h
    rw [key, if_pos h]
  · intro v1 v2 v3 u h1 h2
    rw [key, if_neg (by omega)]

/-- Dummy vertex placed at a given screen position, for concrete rasterizer
inputs. -/
def mkScreenVertex (p : Vec3) : Vertex :=
  ⟨p, ⟨0, 0, 1⟩, ⟨0, 0⟩, ⟨100, 100, 100⟩, p, ⟨0, 0, 1⟩⟩

/-- Witness for C5: a 400×400 bounding box is rejected outright, while a
299×299 one falls through to the scan loop. -/
theorem triangle_size_guard_witness :
    triangle_with_uniforms (mkScreenVertex ⟨0, 0, 0⟩) (mkScreenVertex ⟨400, 0, 0⟩)
        (mkScreenVertex ⟨0, 400, 0⟩) none = [] ∧
      triangle_with_uniforms (mkScreenVertex ⟨0, 0, 0⟩) (mkScreenVertex ⟨299, 0, 0⟩)
          (mkScreenVertex ⟨0, 299, 0⟩) none =
        rasterizeFragments (mkScreenVertex ⟨0, 0, 0⟩) (mkScreenVertex ⟨299, 0, 0⟩)
          (mkScreenVertex ⟨0, 299, 0⟩) none :=
  ⟨triangle_size_guard.1 _ _ _ none (by
      norm_num [triangleWidth, triangleHeight, bboxOf, calculate_bounding_box,
        mkScreenVertex, min_def, max_def]),
    triangle_size_guard.2 _ _ _ none
      (by
        norm_num [triangleWidth, bboxOf, calculate_bounding_box,
          mkScreenVertex, min_def, max_def])
      (by
        norm_num [triangleHeight, bboxOf, calculate_bounding_box,
          mkScreenVertex, min_def, max_def])⟩

/-! ## C2: normal transformation of `vertex_shader` -/

/-- Modelled from the claim (C2 / spec §4.2 step 4): the *claimed* normal
transformation — `transpose(inverse(upper-left 3×3 of model matrix))` applied
to the object-space normal, with the unchanged normal as the non-invertible
fallback. -/
def claimedTransformedNormal (m : Mat4) (n : Vec3) : Vec3 :=
  if (upperLeft3 m).det = 0 then n
  else mat3MulVec (upperLeft3 m).inv.transpose n

lemma modelMat3_transpose (m : Mat4) : (modelMat3 m).transpose = upperLeft3 m := rfl

lemma mat3Id_mulVec (n : Vec3) : mat3MulVec mat3Id n = n := by
  cases n
  simp only [mat3MulVec, mat3Id, Vec3.mk.injEq]
  refine ⟨by ring, by ring, by ring⟩

/-- C2 (amended): `vertex_shader` applies the *untransposed* inverse of the
upper-left 3×3 of the model matrix to the normal (the column-major single
indexing builds the transpose of that block and the subsequent `.transpose()`
cancels it), with the unchanged normal as non-invertible fallback. -/
theorem vertex_shader_normal_untransposed_inverse (v : Vertex) (u : Uniforms) :
    ((upperLeft3 u.model_matrix).det ≠ 0 →
        (vertex_shader v u).transformed_normal =
          mat3MulVec (upperLeft3 u.model_matrix).inv v.normal) ∧
      ((upperLeft3 u.model_matrix).det = 0 →
        (vertex_shader v u).transformed_normal = v.normal) := by
  have hproj : (vertex_shader v u).transformed_normal =
      mat3MulVec (normalMatrix u.model_matrix) v.normal := rfl
  have hnm : normalMatrix u.model_matrix =
      ((upperLeft3 u.model_matrix).tryInverse).getD mat3Id := by
    rw [normalMatrix, modelMat3_transpose]
  constructor
  · intro hdet
    rw [hproj, hnm, Mat3.tryInverse, if_neg hdet, Option.getD_some]
  · intro hdet
    rw [hproj, hnm, Mat3.tryInverse, if_pos hdet, Option.getD_none, mat3Id_mulVec]

/-- The identity 4×4 matrix. -/
def mat4Id : Mat4 := ⟨1, 0, 0, 0, 0, 1, 0, 0, 0, 0, 1, 0, 0, 0, 0, 1⟩

/-- A model matrix whose upper-left 3×3 block is an (invertible,
non-symmetric) shear. -/
def shearMat4 : Mat4 := ⟨1, 1, 0, 0, 0, 1, 0, 0, 0, 0, 1, 0, 0, 0, 0, 1⟩

/-- A model matrix whose upper-left 3×3 block is singular (all zero). -/
def zeroBlockMat4 : Mat4 := ⟨0, 0, 0, 0, 0, 0, 0, 0, 0, 0, 0, 0, 0, 0, 0, 1⟩

/-- Uniforms with the shear model matrix. -/
def shearUniforms : Uniforms :=
  ⟨shearMat4, mat4Id, mat4Id, mat4Id, ⟨0, 0, 0⟩, false, ShaderType.Star, 0⟩

/-- Uniforms with the singular-block model matrix. -/
def zeroBlockUniforms : Uniforms :=
  ⟨zeroBlockMat4, mat4Id, mat4Id, mat4Id, ⟨0, 0, 0⟩, false, ShaderType.Star, 0⟩

/-- A vertex whose object-space normal is `(1, 0, 0)`. -/
def shearVertex : Vertex :=
  ⟨⟨0, 0, 0⟩, ⟨1, 0, 0⟩, ⟨0, 0⟩, ⟨0, 0, 0⟩, ⟨0, 0, 0⟩, ⟨0, 0, 0⟩⟩

/-- Counterexample to C2: under the shear model matrix (invertible upper-left
3×3), `vertex_shader` returns the normal `(1, 0, 0)` unchanged, while the
claimed `transpose(inverse(...))` transformation yields `(1, -1, 0)`. -/
theorem vertex_shader_normal_counterexample :
    (vertex_shader shearVertex shearUniforms).transformed_normal = ⟨1, 0, 0⟩ ∧
      claimedTransformedNormal shearUniforms.model_matrix shearVertex.normal =
        ⟨1, -1, 0⟩ ∧
      (⟨1, 0, 0⟩ : Vec3) ≠ ⟨1, -1, 0⟩ := by
  refine ⟨?_, ?_, ?_⟩
  · have hproj : (vertex_shader shearVertex shearUniforms).transformed_normal =
        mat3MulVec (normalMatrix shearUniforms.model_matrix) shearVertex.normal := rfl
    rw [hproj]
    norm_num [normalMatrix, modelMat3, Mat3.transpose, Mat3.tryInverse, Mat3.det,
      Mat3.inv, shearUniforms, shearMat4, shearVertex, mat3MulVec]
  · norm_num [claimedTransformedNormal, upperLeft3, Mat3.det, Mat3.inv,
      Mat3.transpose, shearUniforms, shearMat4, shearVertex, mat3MulVec]
  · intro h
    have := congrArg Vec3.y h
    norm_num at this

/-- Witness for the amended C2, exercising both the invertible branch (shear
matrix) and the singular fallback branch (zero block). -/
theorem vertex_shader_normal_untransposed_inverse_witness :
    ((vertex_shader shearVertex shearUniforms).transformed_normal =
        mat3MulVec (upperLeft3 shearUniforms.model_matrix).inv shearVertex.normal) ∧
      (vertex_shader shearVertex zeroBlockUniforms).transformed_normal =
        shearVertex.normal :=
  ⟨(vertex_shader_normal_untransposed_inverse shearVertex shearUniforms).1 (by
      norm_num [upperLeft3, Mat3.det, shearUniforms, shearMat4]),
    (vertex_shader_normal_untransposed_inverse shearVertex zeroBlockUniforms).2 (by
      norm_num [upperLeft3, Mat3.det, zeroBlockUniforms, zeroBlockMat4])⟩

/-! ## C3: the camera distance range -/

/-- Whether an operation is a `warp_to_body` call. -/
def CamOp.isWarp : CamOp → Prop :=
  fun op => ∃ p d, op = CamOp.warp p d

lemma orbit_distance (c : Camera) (dt dp : ℝ) :
    (c.orbit dt dp).distance = c.distance := by
  unfold Camera.orbit
  split
  · rfl
  · rw [update_position_distance]

lemma toggle_distance (c : Camera) :
    (c.toggle_free_camera).distance = c.distance := by
  unfold Camera.toggle_free_camera
  dsimp only
  split <;> rfl

lemma check_collision_aux_distance (c : Camera) (body_scales : List ℝ) :
    ∀ (body_positions : List Vec3) (i : ℕ) (r : Camera × Bool),
      Camera.check_collision_aux c body_positions body_scales i = some r →
      r.1.distance = c.distance := by
  intro ps
  induction ps with
  | nil =>
      intro i r h
      unfold Camera.check_collision_aux at h
      cases h
      rfl
  | cons p rest ih =>
      intro i r h
      unfold Camera.check_collision_aux at h
      rcases hget : body_scales.get? i with _ | s
      · rw [hget] at h; cases h
      · rw [hget] at h
        dsimp only at h
        by_cases hcol : vlength (vsub c.position p) < s * 15
        · rw [if_pos hcol] at h
          cases h
          dsimp only
          split <;> rfl
        · rw [if_neg hcol] at h
          exact ih (i + 1) r h

/-- Every operation other than `warp_to_body` keeps `distance` in `[50, 3000]`
when it was there (and `zoom` re-establishes the range unconditionally). -/
lemma applyOp_distance (op : CamOp) (c c' : Camera) (hop : ¬ op.isWarp)
    (happ : applyOp op c = some c') (h50 : 50 ≤ c.distance)
    (h3000 : c.distance ≤ 3000) : 50 ≤ c'.distance ∧ c'.distance ≤ 3000 := by
  cases op with
  | orbit dt dp =>
      cases happ
      rw [orbit_distance]
      exact ⟨h50, h3000⟩
  | zoom dd =>
      cases happ
      unfold Camera.zoom
      split
      · exact ⟨h50, h3000⟩
      · rw [update_position_distance]
        exact rclamp_mem _ (by norm_num)
  | toggle =>
      cases happ
      rw [toggle_distance]
      exact ⟨h50, h3000⟩
  | moveForward d =>
      cases happ
      unfold Camera.move_forward
      split <;> exact ⟨h50, h3000⟩
  | moveBackward d =>
      cases happ
      unfold Camera.move_backward
      split <;> exact ⟨h50, h3000⟩
  | moveLeft d =>
      cases happ
      unfold Camera.move_left
      split <;> exact ⟨h50, h3000⟩
  | moveRight d =>
      cases happ
      unfold Camera.move_right
      split <;> exact ⟨h50, h3000⟩
  | moveUp d =>
      cases happ
      unfold Camera.move_up
      split <;> exact ⟨h50, h3000⟩
  | moveDown d =>
      cases happ
      unfold Camera.move_down
      split <;> exact ⟨h50, h3000⟩
  | rotate dx dy =>
      cases happ
      unfold Camera.rotate
      split <;> exact ⟨h50, h3000⟩
  | update dt =>
      cases happ
      unfold Camera.update
      split <;> exact ⟨h50, h3000⟩
  | checkCollision ps ss =>
      simp only [applyOp, Camera.check_collision, Option.map_eq_some'] at happ
      obtain ⟨r, hr, hr'⟩ := happ
      rw [← hr', check_collision_aux_distance c ss ps 0 r hr]
      exact ⟨h50, h3000⟩
  | warp p d =>
      exact absurd ⟨p, d, rfl⟩ hop

lemma runOps_distance :
    ∀ (ops : List CamOp) (c c' : Camera), (∀ op ∈ ops, ¬ op.isWarp) →
      runOps ops c = some c' → 50 ≤ c.distance → c.distance ≤ 3000 →
      50 ≤ c'.distance ∧ c'.distance ≤ 3000 := by
  intro ops
  induction ops with
  | nil =>
      intro c c' _ hrun h50 h3000
      cases hrun
      exact ⟨h50, h3000⟩
  | cons op rest ih =>
      intro c c' hops hrun h50 h3000
      unfold runOps at hrun
      rcases happ : applyOp op c with _ | c1
      · rw [happ] at hrun; cases hrun
      · rw [happ] at hrun
        have h1 := applyOp_distance op c c1 (hops op (by simp)) happ h50 h3000
        exact ih c1 c' (fun o ho => hops o (by simp [ho])) hrun h1.1 h1.2

lemma new_distance (target : Vec3) (d : ℝ) : (Camera.new target d).distance = d := by
  unfold Camera.new
  rw [update_position_distance]

/-- C3 (amended): along any sequence of the listed camera operations that
avoids `warp_to_body`, starting from `Camera::new` with an initial distance
in `[50, 3000]`, the distance stays in `[50, 3000]`.  (`warp_to_body` and
`Camera::new` themselves set the distance without clamping.) -/
theorem camera_distance_invariant_without_warp (target : Vec3) (d0 : ℝ)
    (ops : List CamOp) (c : Camera) (h50 : 50 ≤ d0) (h3000 : d0 ≤ 3000)
    (hops : ∀ op ∈ ops, ¬ op.isWarp)
    (hrun : runOps ops (Camera.new target d0) = some c) :
    50 ≤ c.distance ∧ c.distance ≤ 3000 := by
  refine runOps_distance ops (Camera.new target d0) c hops hrun ?_ ?_ <;>
    rw [new_distance] <;> assumption

/-- Witness for the amended C3 with the empty operation sequence. -/
theorem camera_distance_invariant_without_warp_witness :
    50 ≤ (Camera.new ⟨0, 0, 0⟩ 600).distance ∧
      (Camera.new ⟨0, 0, 0⟩ 600).distance ≤ 3000 :=
  camera_distance_invariant_without_warp ⟨0, 0, 0⟩ 600 [] (Camera.new ⟨0, 0, 0⟩ 600)
    (by norm_num) (by norm_num) (by simp) rfl

/-- The camera obtained from a fresh in-range camera by a single orbital-mode
`warp_to_body` with `safe_distance = 5000`. -/
def warpedCam : Camera :=
  (Camera.new ⟨0, 0, 0⟩ 600).warp_to_body ⟨0, 0, 0⟩ 5000

/-- Counterexample to C3: a camera reachable from `Camera::new` (via one
`warp_to_body` call) whose distance, `5000`, lies outside `[50, 3000]`. -/
theorem camera_distance_counterexample :
    ReachableCamera warpedCam ∧ warpedCam.distance = 5000 ∧
      ¬ (50 ≤ warpedCam.distance ∧ warpedCam.distance ≤ 3000) := by
  have hdist : warpedCam.distance = 5000 := by
    have hfree : (Camera.new ⟨0, 0, 0⟩ 600).free_camera = false := rfl
    unfold warpedCam Camera.warp_to_body
    rw [hfree]
    simp only [Bool.false_eq_true, if_false]
    rw [update_position_distance]
  refine ⟨⟨⟨0, 0, 0⟩, 600, [CamOp.warp ⟨0, 0, 0⟩ 5000], rfl⟩, hdist, ?_⟩
  rw [hdist]
  norm_num

/-! ## C4: out-of-framebuffer fragments in `render` -/

lemma fragment_shader_position (f : Fragment) :
    (fragment_shader f).position = f.position := rfl

/-- C4 (amended): a fragment whose x is at or beyond `width`, or whose y is
at or beyond `height`, produces no framebuffer write in `render`'s
compositing loop.  (Fragments with *negative* coordinates are not dropped:
the `as usize` cast saturates them to `0`; see the counterexample.) -/
theorem render_fragment_out_of_bounds (width height : ℕ) (f : Fragment)
    (hw : (width : ℤ) ≤ usizeMax) (hh : (height : ℤ) ≤ usizeMax)
    (hout : (width : ℝ) ≤ f.position.x ∨ (height : ℝ) ≤ f.position.y) :
    renderFragmentWrite width height f = none := by
  unfold renderFragmentWrite
  rw [if_neg]
  rintro ⟨hx, hy⟩
  rw [fragment_shader_position] at hx hy
  rcases hout with h | h
  · have h1 : (width : ℤ) ≤ ⌊f.position.x⌋ := Int.le_floor.mpr (by exact_mod_cast h)
    have h2 : (width : ℤ) ≤ min ⌊f.position.x⌋ usizeMax := le_min h1 hw
    have h3 : width ≤ usizeCast f.position.x := by
      unfold usizeCast; omega
    omega
  · have h1 : (height : ℤ) ≤ ⌊f.position.y⌋ := Int.le_floor.mpr (by exact_mod_cast h)
    have h2 : (height : ℤ) ≤ min ⌊f.position.y⌋ usizeMax := le_min h1 hh
    have h3 : height ≤ usizeCast f.position.y := by
      unfold usizeCast; omega
    omega

/-- Witness for the amended C4: a fragment at `x = 900` is dropped by the
`800 × 600` framebuffer. -/
theorem render_fragment_out_of_bounds_witness :
    renderFragmentWrite 800 600 ⟨⟨900, 10⟩, ⟨0, 0, 0⟩, 0, 1⟩ = none :=
  render_fragment_out_of_bounds 800 600 ⟨⟨900, 10⟩, ⟨0, 0, 0⟩, 0, 1⟩
    (by norm_num [usizeMax]) (by norm_num [usizeMax]) (Or.inl (by norm_num))

/-- A rasterizer fragment with a negative x coordinate. -/
def negFragment : Fragment := ⟨⟨-5, 10⟩, ⟨100, 100, 100⟩, 0, 1⟩

/-- Counterexample to C4: the fragment at `(-5, 10)` lies outside the
`800 × 600` framebuffer rectangle, yet `render` does *not* drop it — the
saturating `as usize` cast clamps `-5` to `0` and the pixel `(0, 10)` is
written. -/
theorem render_fragment_negative_written :
    negFragment.position.x < 0 ∧
      renderFragmentWrite 800 600 negFragment = some (0, 10) := by
  constructor
  · norm_num [negFragment]
  · unfold renderFragmentWrite fragment_shader negFragment usizeCast usizeMax
    norm_num [min_def]
    omega

/-! ## C1: the per-triangle lighting intensity -/

/-- Modelled from the claim (C1 / spec §4.3 lighting combinator): the
*claimed* per-triangle intensity for a non-emissive draw —
`clamp(0.1 + max(0, dot(faceNormal, lightDir)) * attenuation, 0, 1)` with
`lightDir = normalize(lightPosition - centroid)` and
`attenuation = 1 / (1 + 0.0001 d + 0.000001 d²)`, `d` the centroid-to-light
distance. -/
def claimedLightingIntensity (v1 v2 v3 : Vertex) (u : Uniforms) : ℝ :=
  let n := triangleNormal v1 v2 v3
  let center := triangleCenter v1 v2 v3
  let d := vlength (vsub u.light_position center)
  let lightDir := vnormalize (vsub u.light_position center)
  let attenuation := 1 / (1 + 0.0001 * d + 0.000001 * d * d)
  rclamp (0.1 + rmax (vdot n lightDir) 0 * attenuation) 0 1

/-- First vertex of the concrete lit triangle: a unit right triangle in the
z = 0 plane, screen positions matching the world positions. -/
def litV1 : Vertex := ⟨⟨0, 0, 0⟩, ⟨0, 0, 1⟩, ⟨0, 0⟩, ⟨100, 100, 100⟩, ⟨0, 0, 0⟩, ⟨0, 0, 1⟩⟩

/-- Second vertex of the concrete lit triangle. -/
def litV2 : Vertex := ⟨⟨1, 0, 0⟩, ⟨0, 0, 1⟩, ⟨0, 0⟩, ⟨100, 100, 100⟩, ⟨1, 0, 0⟩, ⟨0, 0, 1⟩⟩

/-- Third vertex of the concrete lit triangle. -/
def litV3 : Vertex := ⟨⟨0, 1, 0⟩, ⟨0, 0, 1⟩, ⟨0, 0⟩, ⟨100, 100, 100⟩, ⟨0, 1, 0⟩, ⟨0, 0, 1⟩⟩

/-- Non-emissive uniforms whose light sits at distance 5 from the triangle
centroid, in the triangle's plane (so the face normal is orthogonal to the
light direction). -/
def litUniforms : Uniforms :=
  ⟨mat4Id, mat4Id, mat4Id, mat4Id, ⟨10 / 3, 13 / 3, 0⟩, false, ShaderType.Star, 0⟩

/-- The single fragment the concrete lit triangle rasterizes to. -/
def litFragment : Fragment := ⟨⟨0, 0⟩, ⟨100, 100, 100⟩, 0, 0⟩

lemma lit_bbox :
    calculate_bounding_box litV1.transformed_position litV2.transformed_position
      litV3.transformed_position = ⟨0, 0, 1, 1⟩ := by
  norm_num [calculate_bounding_box, litV1, litV2, litV3, min_def, max_def]

lemma lit_intensity : triangleIntensity litV1 litV2 litV3 (some litUniforms) = 0 := by
  simp only [triangleIntensity, litUniforms]
  norm_num [triangleNormal, triangleCenter, vnormalize, vcross, vsub, vadd,
    vscale, vdot, vlength, litV1, litV2, litV3, rmax, Real.sqrt_one]

lemma lit_eval :
    triangle_with_uniforms litV1 litV2 litV3 (some litUniforms) = [litFragment] := by
  have hrange : intRange 0 1 = [0, 1] := by decide
  simp only [triangle_with_uniforms, rasterizeFragments, lit_bbox]
  norm_num [hrange, List.flatMap_cons, List.flatMap_nil,
    List.filterMap_cons, List.filterMap_nil, barycentric_coordinates,
    edge_function, interpColor, u8cast, Fragment.new_with_intensity,
    litV1, litV2, litV3, litFragment, min_def]
  refine ⟨by decide, ?_⟩
  have h := lit_intensity
  simp only [litV1, litV2, litV3] at h
  exact h

/-- Counterexample to C1: for the concrete non-emissive triangle, the single
emitted fragment carries intensity `0`, while the claimed formula
`clamp(0.1 + max(0, dot) * attenuation, 0, 1)` evaluates to `1/10`. -/
theorem triangle_intensity_counterexample :
    triangle_with_uniforms litV1 litV2 litV3 (some litUniforms) = [litFragment] ∧
      litFragment.intensity = 0 ∧
      litUniforms.is_light_source = false ∧
      claimedLightingIntensity litV1 litV2 litV3 litUniforms = 1 / 10 := by
  refine ⟨lit_eval, rfl, rfl, ?_⟩
  simp only [claimedLightingIntensity, litUniforms]
  norm_num [triangleNormal, triangleCenter, vnormalize, vcross, vsub, vadd,
    vscale, vdot, vlength, litV1, litV2, litV3, rmax, rclamp, Real.sqrt_one]

/-- C1 (amended): every fragment emitted by `triangle_with_uniforms` under a
uniforms bundle carries intensity `1` when `is_light_source` is set, and the
unattenuated, unclamped Lambert term `max(0, dot(faceNormal, lightDir))`
otherwise — the ambient, attenuation and clamp of the spec's formula are not
applied on this path. -/
theorem triangle_fragment_intensity (v1 v2 v3 : Vertex) (u : Uniforms)
    (f : Fragment) (hf : f ∈ triangle_with_uniforms v1 v2 v3 (some u)) :
    f.intensity =
      if u.is_light_source then 1
      else
        rmax (vdot (triangleNormal v1 v2 v3)
          (vnormalize (vsub u.light_position (triangleCenter v1 v2 v3)))) 0 := by
  have key : triangle_with_uniforms v1 v2 v3 (some u) =
      if 300 < triangleWidth v1 v2 v3 ∨ 300 < triangleHeight v1 v2 v3 then []
      else rasterizeFragments v1 v2 v3 (some u) := rfl
  rw [key] at hf
  split at hf
  · exact absurd hf (List.not_mem_nil f)
  · unfold rasterizeFragments at hf
    simp only [List.mem_flatMap, List.mem_filterMap] at hf
    obtain ⟨y, _, x, _, hx⟩ := hf
    split at hx
    · cases hx
      rfl
    · exact Option.noConfusion hx

/-- Witness for the amended C1 at the concrete lit triangle and its emitted
fragment. -/
theorem triangle_fragment_intensity_witness :
    litFragment.intensity =
      if litUniforms.is_light_source then 1
      else
        rmax (vdot (triangleNormal litV1 litV2 litV3)
          (vnormalize (vsub litUniforms.light_position
            (triangleCenter litV1 litV2 litV3)))) 0 :=
  triangle_fragment_intensity litV1 litV2 litV3 litUniforms litFragment
    (by rw [lit_eval]; exact List.mem_singleton.mpr rfl)

end

end SpaceTravel
